import Mathlib

/-!
Verification of `check_standby_relocation_t1_2.1.py`, a tool that audits and
remediates the `enable_standby_relocation` flag on NSX-T Tier-1 gateways.

The Python program works on JSON objects decoded from the REST API.  We model
JSON values by the inductive type `JVal`; a decoded JSON object (a Python
dict with string keys, insertion ordered) is modelled as an association list
`Gw := List (String × JVal)` together with the Python-dict operations
`dictGet` (`d.get(k)`), `dictGetD` (`d.get(k, default)`) and `dictInsert`
(`d[k] = v`, which overwrites a present key in place and otherwise appends).

Network traffic is modelled by an oracle (`Net`) answering the three request
shapes the program issues, and the functions that perform I/O additionally
return the list of requests they issued (`NetCall`), so that claims about
which calls a run performs can be stated.  Interactive `input()` prompts are
modelled by a list of operator answers consumed in order; a run that would
block forever on input (or loop forever on pagination) is modelled as `none`.
-/

/-- A JSON value, as decoded by Python's `json` module (`None`, `bool`,
numbers, `str`, `list`, `dict`).  Numbers are modelled as integers; no claim
depends on non-integral numerics. -/
inductive JVal where
  | null
  | bool (b : Bool)
  | num (n : Int)
  | str (s : String)
  | arr (elems : List JVal)
  | obj (fields : List (String × JVal))
deriving Repr

mutual

/-- Decidable structural equality on JSON values (Python `==` on decoded
JSON values of like structure). -/
def JVal.decEq : (a b : JVal) → Decidable (a = b)
  | .null, .null => isTrue rfl
  | .null, .bool _ => isFalse (fun h => nomatch h)
  | .null, .num _ => isFalse (fun h => nomatch h)
  | .null, .str _ => isFalse (fun h => nomatch h)
  | .null, .arr _ => isFalse (fun h => nomatch h)
  | .null, .obj _ => isFalse (fun h => nomatch h)
  | .bool _, .null => isFalse (fun h => nomatch h)
  | .bool a, .bool b =>
    if h : a = b then isTrue (by rw [h]) else
      isFalse (by intro hh; injection hh with h1; exact h h1)
  | .bool _, .num _ => isFalse (fun h => nomatch h)
  | .bool _, .str _ => isFalse (fun h => nomatch h)
  | .bool _, .arr _ => isFalse (fun h => nomatch h)
  | .bool _, .obj _ => isFalse (fun h => nomatch h)
  | .num _, .null => isFalse (fun h => nomatch h)
  | .num _, .bool _ => isFalse (fun h => nomatch h)
  | .num a, .num b =>
    if h : a = b then isTrue (by rw [h]) else
      isFalse (by intro hh; injection hh with h1; exact h h1)
  | .num _, .str _ => isFalse (fun h => nomatch h)
  | .num _, .arr _ => isFalse (fun h => nomatch h)
  | .num _, .obj _ => isFalse (fun h => nomatch h)
  | .str _, .null => isFalse (fun h => nomatch h)
  | .str _, .bool _ => isFalse (fun h => nomatch h)
  | .str _, .num _ => isFalse (fun h => nomatch h)
  | .str a, .str b =>
    if h : a = b then isTrue (by rw [h]) else
      isFalse (by intro hh; injection hh with h1; exact h h1)
  | .str _, .arr _ => isFalse (fun h => nomatch h)
  | .str _, .obj _ => isFalse (fun h => nomatch h)
  | .arr _, .null => isFalse (fun h => nomatch h)
  | .arr _, .bool _ => isFalse (fun h => nomatch h)
  | .arr _, .num _ => isFalse (fun h => nomatch h)
  | .arr _, .str _ => isFalse (fun h => nomatch h)
  | .arr xs, .arr ys =>
    match JVal.decEqList xs ys with
    | isTrue h => isTrue (by rw [h])
    | isFalse h => isFalse (by intro hh; injection hh with h1; exact h h1)
  | .arr _, .obj _ => isFalse (fun h => nomatch h)
  | .obj _, .null => isFalse (fun h => nomatch h)
  | .obj _, .bool _ => isFalse (fun h => nomatch h)
  | .obj _, .num _ => isFalse (fun h => nomatch h)
  | .obj _, .str _ => isFalse (fun h => nomatch h)
  | .obj _, .arr _ => isFalse (fun h => nomatch h)
  | .obj xs, .obj ys =>
    match JVal.decEqFields xs ys with
    | isTrue h => isTrue (by rw [h])
    | isFalse h => isFalse (by intro hh; injection hh with h1; exact h h1)

/-- Decidable equality for lists of JSON values. -/
def JVal.decEqList : (xs ys : List JVal) → Decidable (xs = ys)
  | [], [] => isTrue rfl
  | [], _ :: _ => isFalse (fun h => nomatch h)
  | _ :: _, [] => isFalse (fun h => nomatch h)
  | x :: xs, y :: ys =>
    match JVal.decEq x y with
    | isFalse h => isFalse (by intro hh; injection hh with h1 h2; exact h h1)
    | isTrue h1 =>
      match JVal.decEqList xs ys with
      | isTrue h2 => isTrue (by rw [h1, h2])
      | isFalse h2 => isFalse (by intro hh; injection hh with ha hb; exact h2 hb)

/-- Decidable equality for lists of key-value pairs. -/
def JVal.decEqFields : (xs ys : List (String × JVal)) → Decidable (xs = ys)
  | [], [] => isTrue rfl
  | [], _ :: _ => isFalse (fun h => nomatch h)
  | _ :: _, [] => isFalse (fun h => nomatch h)
  | (k, v) :: xs, (l, w) :: ys =>
    if hk : k = l then
      match JVal.decEq v w with
      | isFalse h => isFalse (by
          intro hh; injection hh with h1 h2
          injection h1 with ha hb; exact h hb)
      | isTrue hv =>
        match JVal.decEqFields xs ys with
        | isTrue ht => isTrue (by rw [hk, hv, ht])
        | isFalse ht => isFalse (by intro hh; injection hh with h1 h2; exact ht h2)
    else
      isFalse (by
        intro hh; injection hh with h1 h2
        injection h1 with ha hb; exact hk ha)

end

instance : DecidableEq JVal := JVal.decEq

/-- A decoded JSON object (Python dict with string keys, insertion ordered):
the representation of one Tier-1 gateway as returned by the API. -/
abbrev Gw : Type := List (String × JVal)

/-- Python `d.get(k)` on a string-keyed dict: the value at the first
(unique, for a real dict) occurrence of key `k`, or `None`-as-absence. -/
def dictGet {α : Type} (d : List (String × α)) (k : String) : Option α :=
  match d with
  | [] => none
  | (k', v) :: tl => if k' = k then some v else dictGet tl k

/-- Python `d.get(k, default)`. -/
def dictGetD {α : Type} (d : List (String × α)) (k : String) (d₀ : α) : α :=
  (dictGet d k).getD d₀

/-- Python `d[k] = v`: overwrite the value at a present key (keeping its
position), otherwise append the new binding at the end. -/
def dictInsert {α : Type} (d : List (String × α)) (k : String) (v : α) :
    List (String × α) :=
  match d with
  | [] => [(k, v)]
  | (k', v') :: tl => if k' = k then (k, v) :: tl else (k', v') :: dictInsert tl k v

/-- Python truthiness of a decoded JSON value (`bool(v)`):
`None`, `False`, `0`, `""`, `[]`, `{}` are falsy. -/
def truthy : JVal → Bool
  | .null => false
  | .bool b => b
  | .num n => n != 0
  | .str s => !s.isEmpty
  | .arr xs => !xs.isEmpty
  | .obj fs => !fs.isEmpty

theorem dictGet_dictInsert_self {α : Type} (d : List (String × α)) (k : String) (v : α) :
    dictGet (dictInsert d k v) k = some v := by
  induction d with
  | nil => simp [dictInsert, dictGet]
  | cons hd tl ih =>
    by_cases h : hd.1 = k
    · simp [dictInsert, dictGet, h]
    · simp only [dictInsert, dictGet]
      rw [if_neg h, dictGet, if_neg h]
      exact ih

theorem dictGet_dictInsert_ne {α : Type} (d : List (String × α)) (k k' : String)
    (v : α) (h : k' ≠ k) :
    dictGet (dictInsert d k v) k' = dictGet d k' := by
  induction d with
  | nil => simp [dictInsert, dictGet, Ne.symm h]
  | cons hd tl ih =>
    obtain ⟨k₀, v₀⟩ := hd
    by_cases hk : k₀ = k
    · subst hk
      simp [dictInsert, dictGet, Ne.symm h]
    · by_cases hk' : k₀ = k'
      · simp [dictInsert, dictGet, hk, hk', h]
      · simp [dictInsert, dictGet, hk, hk', ih]

/-! ## Classifier (`classify_t1s`, source lines 137-159) -/

/-- The test `t1.get("ha_mode") == "ACTIVE_STANDBY"` from `classify_t1s`. -/
def isActiveStandby (t1 : Gw) : Bool :=
  match dictGet t1 "ha_mode" with
  | some (.str s) => s == "ACTIVE_STANDBY"
  | _ => false

/-- The value `t1.get("enable_standby_relocation", False)` from `classify_t1s`. -/
def relocationFlag (t1 : Gw) : JVal :=
  dictGetD t1 "enable_standby_relocation" (.bool false)

/-- The loop of `classify_t1s`, with the three accumulated buckets explicit
(Python appends to three lists while iterating the input in order). -/
def classify_aux (acc_as acc_c acc_n : List Gw) : List Gw → List Gw × List Gw × List Gw
  | [] => (acc_as, acc_c, acc_n)
  | t1 :: rest =>
    if isActiveStandby t1 then
      if truthy (relocationFlag t1) then
        classify_aux (acc_as ++ [t1]) (acc_c ++ [t1]) acc_n rest
      else
        classify_aux (acc_as ++ [t1]) acc_c (acc_n ++ [t1]) rest
    else
      classify_aux acc_as acc_c acc_n rest

/-- `classify_t1s(t1_list)`: returns `(active_standby_all, compliant, non_compliant)`. -/
def classify_t1s (t1_list : List Gw) : List Gw × List Gw × List Gw :=
  classify_aux [] [] [] t1_list

/-- An ACTIVE_STANDBY gateway whose relocation flag is truthy. -/
def isCompliantAS (t1 : Gw) : Bool :=
  isActiveStandby t1 && truthy (relocationFlag t1)

/-- An ACTIVE_STANDBY gateway whose relocation flag is falsy or absent. -/
def isNonCompliantAS (t1 : Gw) : Bool :=
  isActiveStandby t1 && !truthy (relocationFlag t1)

theorem classify_aux_eq (l : List Gw) : ∀ a c n, classify_aux a c n l =
    (a ++ l.filter isActiveStandby, c ++ l.filter isCompliantAS,
     n ++ l.filter isNonCompliantAS) := by
  induction l with
  | nil => simp [classify_aux]
  | cons t1 rest ih =>
    intro a c n
    by_cases h1 : isActiveStandby t1
    · by_cases h2 : truthy (relocationFlag t1)
      · simp [classify_aux, h1, h2, ih, isCompliantAS, isNonCompliantAS,
          List.filter_cons]
      · simp [classify_aux, h1, h2, ih, isCompliantAS, isNonCompliantAS,
          List.filter_cons]
    · simp [classify_aux, h1, ih, isCompliantAS, isNonCompliantAS, List.filter_cons]

theorem classify_t1s_eq (l : List Gw) :
    classify_t1s l =
      (l.filter isActiveStandby, l.filter isCompliantAS, l.filter isNonCompliantAS) := by
  simp [classify_t1s, classify_aux_eq]

/-! ## Claims C2 and C3 -/

/-- C2: for every input list, `classify_t1s` returns buckets where compliant
and non-compliant are disjoint, their union as a set is `active_standby`,
`active_standby` holds exactly the input gateways whose `ha_mode` equals
`"ACTIVE_STANDBY"`, gateways with any other mode appear in none of the three
buckets, and each bucket preserves the input order (is a sublist of the
input). -/
theorem classify_buckets_partition (l : List Gw) :
    (∀ g, ¬(g ∈ (classify_t1s l).2.1 ∧ g ∈ (classify_t1s l).2.2)) ∧
    (∀ g, g ∈ (classify_t1s l).1 ↔ g ∈ (classify_t1s l).2.1 ∨ g ∈ (classify_t1s l).2.2) ∧
    (∀ g, g ∈ (classify_t1s l).1 ↔ g ∈ l ∧ isActiveStandby g = true) ∧
    (∀ g, g ∈ l → isActiveStandby g = false →
      g ∉ (classify_t1s l).1 ∧ g ∉ (classify_t1s l).2.1 ∧ g ∉ (classify_t1s l).2.2) ∧
    (classify_t1s l).1.Sublist l ∧ (classify_t1s l).2.1.Sublist l ∧
    (classify_t1s l).2.2.Sublist l := by
  rw [classify_t1s_eq]
  refine ⟨?_, ?_, ?_, ?_, ?_, ?_, ?_⟩
  · intro g h
    obtain ⟨h1, h2⟩ := h
    rw [List.mem_filter] at h1 h2
    simp only [isCompliantAS, isNonCompliantAS, Bool.and_eq_true, Bool.not_eq_true'] at h1 h2
    rw [h1.2.2] at h2
    exact absurd h2.2.2 (by simp)
  · intro g
    simp only [List.mem_filter, isCompliantAS, isNonCompliantAS, Bool.and_eq_true,
      Bool.not_eq_true']
    constructor
    · intro ⟨hm, ha⟩
      by_cases ht : truthy (relocationFlag g)
      · exact Or.inl ⟨hm, ha, ht⟩
      · exact Or.inr ⟨hm, ha, by simpa using ht⟩
    · rintro (⟨hm, ha, _⟩ | ⟨hm, ha, _⟩) <;> exact ⟨hm, ha⟩
  · intro g
    exact List.mem_filter
  · intro g hg ha
    simp only [List.mem_filter, isCompliantAS, isNonCompliantAS, Bool.and_eq_true]
    rw [ha]
    simp
  · exact List.filter_sublist l
  · exact List.filter_sublist l
  · exact List.filter_sublist l

/-- C3: an ACTIVE_STANDBY gateway is placed in the compliant bucket iff its
`enable_standby_relocation` field is present and truthy; if the field is
`false` or absent the gateway lands in the non-compliant bucket. -/
theorem classify_compliant_iff_truthy (l : List Gw) (g : Gw)
    (hg : g ∈ l) (ha : isActiveStandby g = true) :
    (g ∈ (classify_t1s l).2.1 ↔
      ∃ v, dictGet g "enable_standby_relocation" = some v ∧ truthy v = true) ∧
    ((dictGet g "enable_standby_relocation" = some (JVal.bool false) ∨
      dictGet g "enable_standby_relocation" = none) → g ∈ (classify_t1s l).2.2) := by
  rw [classify_t1s_eq]
  constructor
  · rw [List.mem_filter]
    simp only [isCompliantAS, Bool.and_eq_true]
    constructor
    · intro ⟨_, _, ht⟩
      unfold relocationFlag dictGetD at ht
      cases hv : dictGet g "enable_standby_relocation" with
      | none => rw [hv] at ht; simp [truthy] at ht
      | some v => rw [hv] at ht; exact ⟨v, rfl, ht⟩
    · intro ⟨v, hv, ht⟩
      refine ⟨hg, ha, ?_⟩
      unfold relocationFlag dictGetD
      rw [hv]
      exact ht
  · intro h
    rw [List.mem_filter]
    simp only [isNonCompliantAS, Bool.and_eq_true, Bool.not_eq_true']
    refine ⟨hg, ha, ?_⟩
    unfold relocationFlag dictGetD
    rcases h with h | h <;> rw [h] <;> simp [truthy]

/-- Sample gateway: ACTIVE_STANDBY with relocation enabled. -/
def gwCompliant : Gw :=
  [("id", .str "t1-a"), ("display_name", .str "alpha"),
   ("ha_mode", .str "ACTIVE_STANDBY"), ("enable_standby_relocation", .bool true)]

/-- Sample gateway: ACTIVE_STANDBY with the relocation field absent. -/
def gwMissingFlag : Gw :=
  [("id", .str "t1-b"), ("display_name", .str "beta"),
   ("ha_mode", .str "ACTIVE_STANDBY")]

/-- Sample gateway: ACTIVE_ACTIVE mode. -/
def gwActiveActive : Gw :=
  [("id", .str "t1-c"), ("ha_mode", .str "ACTIVE_ACTIVE"),
   ("enable_standby_relocation", .bool false)]

/-- Witness for C2 at a concrete three-gateway list. -/
theorem classify_buckets_partition_witness :
    gwActiveActive ∉ (classify_t1s [gwCompliant, gwMissingFlag, gwActiveActive]).1 ∧
    gwActiveActive ∉ (classify_t1s [gwCompliant, gwMissingFlag, gwActiveActive]).2.1 ∧
    gwActiveActive ∉ (classify_t1s [gwCompliant, gwMissingFlag, gwActiveActive]).2.2 :=
  (classify_buckets_partition [gwCompliant, gwMissingFlag, gwActiveActive]).2.2.2.1
    gwActiveActive (by decide) (by decide)

/-- Witness for C3: a concrete ACTIVE_STANDBY gateway with the flag absent is
non-compliant. -/
theorem classify_compliant_iff_truthy_witness :
    gwMissingFlag ∈ (classify_t1s [gwCompliant, gwMissingFlag, gwActiveActive]).2.2 :=
  (classify_compliant_iff_truthy [gwCompliant, gwMissingFlag, gwActiveActive]
    gwMissingFlag (by decide) (by decide)).2 (Or.inr (by decide))

/-! ## Network model

The program issues three request shapes: the paginated listing GET, the
single-gateway GET, and the single-gateway PUT.  `Net` is the server oracle
answering each shape; `NetCall` records one issued request.  URL formatting
(`f"{base_url}/policy/api/v1/infra/tier-1s/{t1_id}"`) is injective per shape
for the ids that occur, so calls are identified by endpoint shape and id
rather than by formatted URL string. -/

/-- An HTTP failure (`requests.HTTPError` from `raise_for_status`). -/
structure HttpErr where
  status : Nat
  body : String
deriving DecidableEq, Repr

/-- One decoded page of the listing response: `data.get("results", [])` and
`data.get("cursor")`. -/
structure Page where
  results : List Gw
  cursor : Option JVal
deriving DecidableEq, Repr

/-- One network request issued by the program. -/
inductive NetCall where
  | listGet (cursor : Option JVal)
  | getT1 (t1_id : JVal)
  | putT1 (t1_id : JVal) (body : Gw)
deriving DecidableEq, Repr

/-- The server oracle: responses to the three request shapes. -/
structure Net where
  list : Option JVal → Except HttpErr Page
  getT1 : JVal → Except HttpErr Gw
  putT1 : JVal → Gw → Except HttpErr Unit

/-- Truthiness of the loop's `cursor` variable (`None` initially, then
`data.get("cursor")`). -/
def truthyCursor : Option JVal → Bool
  | none => false
  | some v => truthy v

/-- The request parameters: `params["cursor"] = cursor` only when `cursor`
is truthy (`if cursor:`). -/
def listParams (cursor : Option JVal) : Option JVal :=
  if truthyCursor cursor then cursor else none

/-! ## Gateway Lister (`list_tier1_gateways`, source lines 52-75) -/

/-- The `while True` pagination loop, with fuel to make the (network
dependent) loop a total function; a run needing more iterations than `fuel`
is `none`.  Returns the accumulated results (or the propagated HTTP error)
together with the listing requests issued. -/
def list_loop (net : Net) : Nat → Option JVal → List Gw → List NetCall →
    Option (Except HttpErr (List Gw) × List NetCall)
  | 0, _, _, _ => none
  | fuel + 1, cursor, results, tr =>
    let params := listParams cursor
    let tr := tr ++ [NetCall.listGet params]
    match net.list params with
    | .error e => some (.error e, tr)
    | .ok page =>
      let results := results ++ page.results
      if truthyCursor page.cursor then
        list_loop net fuel page.cursor results tr
      else
        some (.ok results, tr)

/-- `list_tier1_gateways(session, base_url)`. -/
def list_tier1_gateways (net : Net) (fuel : Nat) :
    Option (Except HttpErr (List Gw) × List NetCall) :=
  list_loop net fuel none [] []

/-- The spec's description of the lister, written from the spec's words, to
be compared with the implementation model `list_tier1_gateways`: starting
from a cursor, the run either fails on the current page request (returning
no gateways at all), or obtains a page; if the server omits (or blanks) the
cursor the result is that page's results, otherwise the run continues from
the returned cursor and the final result is the concatenation of this page's
results with the rest — and any later failure makes the whole run fail with
no gateways. -/
inductive ListingSpec (net : Net) : Option JVal → Except HttpErr (List Gw) → Prop
  | fail (c : Option JVal) (e : HttpErr) :
      net.list (listParams c) = .error e → ListingSpec net c (.error e)
  | last (c : Option JVal) (p : Page) :
      net.list (listParams c) = .ok p → truthyCursor p.cursor = false →
      ListingSpec net c (.ok p.results)
  | stepOk (c : Option JVal) (p : Page) (gs : List Gw) :
      net.list (listParams c) = .ok p → truthyCursor p.cursor = true →
      ListingSpec net p.cursor (.ok gs) →
      ListingSpec net c (.ok (p.results ++ gs))
  | stepFail (c : Option JVal) (p : Page) (e : HttpErr) :
      net.list (listParams c) = .ok p → truthyCursor p.cursor = true →
      ListingSpec net p.cursor (.error e) →
      ListingSpec net c (.error e)

theorem list_loop_spec (net : Net) (fuel : Nat) :
    ∀ cursor acc tr0 res tr,
      list_loop net fuel cursor acc tr0 = some (res, tr) →
      (∀ gs, res = .ok gs → ∃ tail, gs = acc ++ tail ∧ ListingSpec net cursor (.ok tail)) ∧
      (∀ e, res = .error e → ListingSpec net cursor (.error e)) := by
  induction fuel with
  | zero => intro cursor acc tr0 res tr h; exact absurd h (by simp [list_loop])
  | succ n ih =>
    intro cursor acc tr0 res tr h
    simp only [list_loop] at h
    cases hl : net.list (listParams cursor) with
    | error e =>
      rw [hl] at h
      simp only [Option.some.injEq, Prod.mk.injEq] at h
      constructor
      · intro gs hgs; rw [← h.1] at hgs; exact absurd hgs (by simp)
      · intro e' he'
        rw [← h.1] at he'
        cases he'
        exact ListingSpec.fail cursor e hl
    | ok page =>
      rw [hl] at h
      by_cases hc : truthyCursor page.cursor
      · simp only [hc, if_true] at h
        obtain ⟨hok, herr⟩ := ih page.cursor (acc ++ page.results) _ res tr h
        constructor
        · intro gs hgs
          obtain ⟨tail, htail, hspec⟩ := hok gs hgs
          exact ⟨page.results ++ tail, by rw [htail, List.append_assoc],
            ListingSpec.stepOk cursor page tail hl hc hspec⟩
        · intro e he
          exact ListingSpec.stepFail cursor page e hl hc (herr e he)
      · simp only [hc, Bool.false_eq_true, if_false, Option.some.injEq,
          Prod.mk.injEq] at h
        constructor
        · intro gs hgs
          rw [← h.1] at hgs
          cases hgs
          exact ⟨page.results, rfl, ListingSpec.last cursor page hl (by simpa using hc)⟩
        · intro e he; rw [← h.1] at he; exact absurd he (by simp)

/-- C4: every completed run of the lister follows the returned cursor until
the server omits it and returns exactly the concatenation of all pages'
results in server order; if any page request fails, the whole listing fails
and returns no gateways at all (the error result carries none). -/
theorem listing_meets_pagination_spec
    (net : Net) (fuel : Nat) (res : Except HttpErr (List Gw)) (tr : List NetCall)
    (h : list_tier1_gateways net fuel = some (res, tr)) :
    ListingSpec net none res := by
  obtain ⟨hok, herr⟩ := list_loop_spec net fuel none [] [] res tr h
  cases res with
  | ok gs =>
    obtain ⟨tail, htail, hspec⟩ := hok gs rfl
    simpa [htail] using hspec
  | error e => exact herr e rfl

/-- A two-page listing server: the first request (no cursor) yields two
gateways and a continuation cursor, the second yields one gateway and no
cursor; any other cursor is an error. -/
def twoPageNet : Net where
  list := fun c =>
    if c = none then .ok ⟨[gwCompliant, gwActiveActive], some (.str "c2")⟩
    else if c = some (.str "c2") then .ok ⟨[gwMissingFlag], none⟩
    else .error ⟨404, "bad cursor"⟩
  getT1 := fun _ => .error ⟨404, "not found"⟩
  putT1 := fun _ _ => .error ⟨404, "not found"⟩

/-- Witness for C4: the two-page run completes with the concatenated
results and satisfies the spec relation. -/
theorem listing_meets_pagination_spec_witness :
    list_tier1_gateways twoPageNet 2 =
      some (.ok [gwCompliant, gwActiveActive, gwMissingFlag],
        [NetCall.listGet none, NetCall.listGet (some (.str "c2"))]) ∧
    ListingSpec twoPageNet none (.ok [gwCompliant, gwActiveActive, gwMissingFlag]) :=
  ⟨by rfl, listing_meets_pagination_spec twoPageNet 2 _ _ (by rfl)⟩

/-! ## Remediator (`update_t1_relocation`, source lines 110-134, with
`get_t1_full_config` lines 78-86 and `save_t1_backup` lines 89-107) -/

/-- `get_t1_full_config(session, base_url, t1_id)`: the per-gateway GET. -/
def get_t1_full_config (net : Net) (t1_id : JVal) : Except HttpErr Gw :=
  net.getT1 t1_id

/-- `update_t1_relocation(session, base_url, t1_id, enable_standby_relocation)`:
GET the full object, write the backup (whose content is the object as
fetched — `save_t1_backup` serializes `t1_config` before the mutation on the
next line), set the one field, PUT the whole object.  The model returns the
backup file's content in place of its path, paired with the PUT body, and
the list of requests issued. -/
def update_t1_relocation (net : Net) (t1_id : JVal) (enable : Bool) :
    Except HttpErr (Gw × Gw) × List NetCall :=
  match get_t1_full_config net t1_id with
  | .error e => (.error e, [.getT1 t1_id])
  | .ok t1_config =>
    let backup_file := t1_config
    let newConfig := dictInsert t1_config "enable_standby_relocation" (.bool enable)
    match net.putT1 t1_id newConfig with
    | .error e => (.error e, [.getT1 t1_id, .putT1 t1_id newConfig])
    | .ok _ => (.ok (backup_file, newConfig), [.getT1 t1_id, .putT1 t1_id newConfig])

/-- C1: when the per-gateway GET returns `O` and the PUT succeeds, the
remediate call stores a backup equal to `O` exactly as fetched, and issues a
PUT whose body is `O` with `enable_standby_relocation` set to the desired
value and every other field unchanged. -/
theorem remediate_backup_and_frame (net : Net) (t1_id : JVal) (enable : Bool) (O : Gw)
    (hget : net.getT1 t1_id = .ok O)
    (hput : net.putT1 t1_id (dictInsert O "enable_standby_relocation" (.bool enable)) =
      .ok ()) :
    update_t1_relocation net t1_id enable =
      (.ok (O, dictInsert O "enable_standby_relocation" (.bool enable)),
       [.getT1 t1_id,
        .putT1 t1_id (dictInsert O "enable_standby_relocation" (.bool enable))]) ∧
    dictGet (dictInsert O "enable_standby_relocation" (.bool enable))
      "enable_standby_relocation" = some (.bool enable) ∧
    (∀ k, k ≠ "enable_standby_relocation" →
      dictGet (dictInsert O "enable_standby_relocation" (.bool enable)) k =
        dictGet O k) := by
  refine ⟨?_, dictGet_dictInsert_self O _ _,
    fun k hk => dictGet_dictInsert_ne O _ k _ hk⟩
  simp [update_t1_relocation, get_t1_full_config, hget, hput]

/-- A server whose per-gateway GET serves `gwMissingFlag` for id `"t1-b"`
and whose PUT always succeeds. -/
def remNet : Net where
  list := fun _ => .error ⟨500, "unused"⟩
  getT1 := fun i => if i = .str "t1-b" then .ok gwMissingFlag else .error ⟨404, "not found"⟩
  putT1 := fun _ _ => .ok ()

/-- Witness for C1: remediating `"t1-b"` on `remNet` backs up the fetched
object verbatim, PUTs it with only the flag changed, and leaves a sample
other field (`"ha_mode"`) untouched. -/
theorem remediate_backup_and_frame_witness :
    update_t1_relocation remNet (.str "t1-b") true =
      (.ok (gwMissingFlag, dictInsert gwMissingFlag "enable_standby_relocation" (.bool true)),
       [.getT1 (.str "t1-b"),
        .putT1 (.str "t1-b") (dictInsert gwMissingFlag "enable_standby_relocation" (.bool true))]) ∧
    dictGet (dictInsert gwMissingFlag "enable_standby_relocation" (.bool true)) "ha_mode" =
      dictGet gwMissingFlag "ha_mode" :=
  ⟨(remediate_backup_and_frame remNet (.str "t1-b") true gwMissingFlag (by rfl) (by rfl)).1,
   (remediate_backup_and_frame remNet (.str "t1-b") true gwMissingFlag (by rfl) (by rfl)).2.2
     "ha_mode" (by decide)⟩

/-! ## Python string helpers

Python `.lower()`, `.strip()` and `.split(',')`, modelled directly over the
character list (ASCII-faithful; kernel-computable, unlike the well-founded
core `String` loops). -/

/-- Python `s.lower()`. -/
def pyLower (s : String) : String := ⟨s.data.map Char.toLower⟩

/-- Python `s.strip()`: drop whitespace from both ends. -/
def pyStrip (s : String) : String :=
  ⟨((s.data.dropWhile Char.isWhitespace).reverse.dropWhile Char.isWhitespace).reverse⟩

/-- Helper for `pySplitComma`: accumulates the current (reversed) fragment. -/
def splitCommaAux : List Char → List Char → List String
  | [], acc => [⟨acc.reverse⟩]
  | c :: cs, acc =>
    if c = ',' then ⟨acc.reverse⟩ :: splitCommaAux cs []
    else splitCommaAux cs (c :: acc)

/-- Python `s.split(',')` (note: `''.split(',') == ['']`). -/
def pySplitComma (s : String) : List String := splitCommaAux s.data []

/-! ## Selector (`select_t1s_to_modify`, source lines 191-254)

Interactive `input()` answers are modelled as a list of strings consumed in
order; the re-prompting `while True` loop recurses on the remaining answers
and yields `none` when they run out (the real program would stay blocked at
the prompt).  `.lower()` on a non-string field value raises in Python; the
map construction therefore returns `none` in that case (the exception
propagates: the construction happens before the `try` block). -/

/-- Python `.lower()` applied to a fetched field value: defined for strings
only. -/
def pyStrLower : JVal → Option String
  | .str s => some (pyLower s)
  | _ => none

/-- One iteration of the map-construction loop: insert
`display_name.lower()` (if non-empty) and then `id.lower()` for one
gateway. -/
def t1_map_step (m : List (String × Gw)) (t1 : Gw) : Option (List (String × Gw)) := do
  let display_name ← pyStrLower (dictGetD t1 "display_name" (.str ""))
  let t1_id ← pyStrLower (dictGetD t1 "id" (.str ""))
  let m1 := if display_name ≠ "" then dictInsert m display_name t1 else m
  pure (dictInsert m1 t1_id t1)

/-- The `t1_map` built at the top of `select_t1s_to_modify`: one shared
name/id → gateway mapping. -/
def t1_map (non_compliant : List Gw) : Option (List (String × Gw)) :=
  non_compliant.foldlM t1_map_step []

/-- `('exit', 'q', 'quit', 'cancel')`. -/
def cancelTokens : List String := ["exit", "q", "quit", "cancel"]

/-- `('all', 'a', '*')`. -/
def allTokens : List String := ["all", "a", "*"]

/-- `[name.strip() for name in selection.split(',')]`. -/
def parseNames (selection : String) : List String :=
  (pySplitComma selection).map (fun name => pyStrip name)

/-- One iteration of the token-matching `for` loop: look the lowered token
up in the map, append the gateway if new (`if t1 not in selected_t1s`),
otherwise record the token as not found. -/
def matchStep (m : List (String × Gw)) (acc : List Gw × List String)
    (name_input : String) : List Gw × List String :=
  match dictGet m (pyLower name_input) with
  | some t1 => if t1 ∈ acc.1 then acc else (acc.1 ++ [t1], acc.2)
  | none => (acc.1, acc.2 ++ [name_input])

/-- The token-matching loop over all entered names: returns
`(selected_t1s, not_found)`. -/
def matchTokens (m : List (String × Gw)) (names : List String) :
    List Gw × List String :=
  names.foldl (matchStep m) ([], [])

/-- The `while True` prompt loop of `select_t1s_to_modify`, over the list of
remaining operator answers. -/
def select_loop (m : List (String × Gw)) (non_compliant : List Gw) :
    List String → Option (List Gw)
  | [] => none
  | raw :: rest =>
    let selection := pyStrip raw
    if pyLower selection ∈ cancelTokens then some []
    else if pyLower selection ∈ allTokens then some non_compliant
    else
      let selected_t1s := (matchTokens m (parseNames selection)).1
      if selected_t1s.isEmpty then select_loop m non_compliant rest
      else some selected_t1s

/-- `select_t1s_to_modify(non_compliant)` under a scripted list of operator
answers: `none` of the outer `Option` models the map-construction exception,
`none` of the inner one an operator that never completes the selection. -/
def select_t1s_to_modify (non_compliant : List Gw) (inputs : List String) :
    Option (Option (List Gw)) :=
  (t1_map non_compliant).map (fun m => select_loop m non_compliant inputs)

theorem matchTokens_fold_nodup (m : List (String × Gw)) (names : List String) :
    ∀ acc : List Gw × List String, acc.1.Nodup →
      (names.foldl (matchStep m) acc).1.Nodup := by
  induction names with
  | nil => intro acc h; simpa using h
  | cons name rest ih =>
    intro acc h
    rw [List.foldl_cons]
    apply ih
    unfold matchStep
    cases dictGet m (pyLower name) with
    | none => simpa using h
    | some t1 =>
      by_cases hmem : t1 ∈ acc.1
      · simpa [hmem] using h
      · simp [hmem, List.nodup_append, h]

/-- C8: on any non-compliant bucket, a selector input whose stripped,
lowered form is one of `all`/`a`/`*` returns exactly the bucket — the same
records in the same order — and hence introduces no duplicates (the result
is duplicate-free whenever the bucket's records are pairwise distinct). -/
theorem select_all_returns_bucket (m : List (String × Gw)) (non_compliant : List Gw)
    (raw : String) (rest : List String) (h : pyLower (pyStrip raw) ∈ allTokens) :
    select_loop m non_compliant (raw :: rest) = some non_compliant ∧
    (non_compliant.Nodup →
      ∀ sel, select_loop m non_compliant (raw :: rest) = some sel → sel.Nodup) := by
  have hcancel : pyLower (pyStrip raw) ∉ cancelTokens := by
    simp only [allTokens, List.mem_cons, List.not_mem_nil, or_false] at h
    rcases h with h | h | h <;> rw [h] <;> decide
  have heq : select_loop m non_compliant (raw :: rest) = some non_compliant := by
    unfold select_loop
    rw [if_neg hcancel, if_pos h]
  refine ⟨heq, fun hnd sel hsel => ?_⟩
  rw [heq] at hsel
  injection hsel with h1
  rw [← h1]
  exact hnd

/-- Witness for C8: the input `" ALL "` selects the whole two-gateway
bucket. -/
theorem select_all_returns_bucket_witness :
    select_loop [] [gwCompliant, gwMissingFlag] [" ALL "] =
      some [gwCompliant, gwMissingFlag] :=
  (select_all_returns_bucket [] [gwCompliant, gwMissingFlag] " ALL " []
    (by decide)).1

/-- C7: on a non-empty non-compliant bucket, the selector returns the empty
selection only when some entered answer is an explicit cancellation token;
an answer whose token list matches zero gateways makes the loop re-prompt
(consume the next answer) rather than return an empty selection; and the
matched selection is deduplicated. -/
theorem select_empty_only_on_cancel (m : List (String × Gw))
    (non_compliant : List Gw) (hne : non_compliant ≠ []) :
    (∀ inputs, select_loop m non_compliant inputs = some [] →
      ∃ raw, raw ∈ inputs ∧ pyLower (pyStrip raw) ∈ cancelTokens) ∧
    (∀ raw rest, pyLower (pyStrip raw) ∉ cancelTokens →
      pyLower (pyStrip raw) ∉ allTokens →
      (matchTokens m (parseNames (pyStrip raw))).1 = [] →
      select_loop m non_compliant (raw :: rest) = select_loop m non_compliant rest) ∧
    (∀ names, (matchTokens m names).1.Nodup) := by
  refine ⟨?_, ?_, fun names => matchTokens_fold_nodup m names ([], []) (by simp)⟩
  · intro inputs
    induction inputs with
    | nil => intro h; exact absurd h (by simp [select_loop])
    | cons raw rest ih =>
      intro h
      unfold select_loop at h
      by_cases hc : pyLower (pyStrip raw) ∈ cancelTokens
      · exact ⟨raw, List.mem_cons_self raw rest, hc⟩
      · rw [if_neg hc] at h
        by_cases ha : pyLower (pyStrip raw) ∈ allTokens
        · rw [if_pos ha] at h
          injection h with h1
          exact absurd h1 hne
        · rw [if_neg ha] at h
          by_cases hsel : (matchTokens m (parseNames (pyStrip raw))).1.isEmpty
          · rw [if_pos hsel] at h
            obtain ⟨raw', hmem, hcan⟩ := ih h
            exact ⟨raw', List.mem_cons_of_mem raw hmem, hcan⟩
          · rw [if_neg hsel] at h
            injection h with h1
            exact absurd (by rw [h1]; rfl) hsel
  · intro raw rest hc ha hmatch
    have hstep : select_loop m non_compliant (raw :: rest) =
        (if pyLower (pyStrip raw) ∈ cancelTokens then some [] else
         if pyLower (pyStrip raw) ∈ allTokens then some non_compliant else
         if (matchTokens m (parseNames (pyStrip raw))).1.isEmpty = true
         then select_loop m non_compliant rest
         else some (matchTokens m (parseNames (pyStrip raw))).1) := rfl
    rw [hstep, if_neg hc, if_neg ha, hmatch]
    exact if_pos rfl

/-- Witness for C7: with a singleton bucket whose gateway is named `alpha`,
the answers `["nonexistent-name", "exit"]` re-prompt once and then cancel,
returning the empty selection; the theorem then locates a cancellation token
among the answers. -/
theorem select_empty_only_on_cancel_witness :
    select_loop [("alpha", gwCompliant)] [gwCompliant] ["nonexistent-name", "exit"] =
      some [] ∧
    ∃ raw, raw ∈ ["nonexistent-name", "exit"] ∧ pyLower (pyStrip raw) ∈ cancelTokens :=
  ⟨by rfl,
   (select_empty_only_on_cancel [("alpha", gwCompliant)] [gwCompliant]
      (by simp)).1 ["nonexistent-name", "exit"] (by rfl)⟩

/-! ## Claim C9: how tokens resolve in the shared name/id map -/

/-- The keys one gateway writes into the shared map, in insertion order:
its lowered display name (when non-empty) and then its lowered id;
`none` when a field value is a non-string. -/
def gwKeys (t1 : Gw) : Option (List String) := do
  let display_name ← pyStrLower (dictGetD t1 "display_name" (.str ""))
  let t1_id ← pyStrLower (dictGetD t1 "id" (.str ""))
  pure (if display_name ≠ "" then [display_name, t1_id] else [t1_id])

/-- Whether a token is among the keys a gateway contributes. -/
def gwHasKey (t1 : Gw) (k : String) : Bool :=
  match gwKeys t1 with
  | some ks => decide (k ∈ ks)
  | none => false

/-- First-of-two-options combinator (kernel-computable `Option.orElse`). -/
def orElseO {α : Type} : Option α → Option α → Option α
  | some x, _ => some x
  | none, y => y

/-- Where a token actually resolves: the last gateway in bucket order whose
key set contains it (its write to the shared map is the latest). -/
def lastGwFor (nc : List Gw) (k : String) : Option Gw :=
  nc.reverse.find? (fun g => gwHasKey g k)

theorem orElseO_assoc {α : Type} (a b c : Option α) :
    orElseO (orElseO a b) c = orElseO a (orElseO b c) := by
  cases a <;> simp [orElseO]

theorem orElseO_none_right {α : Type} (a : Option α) : orElseO a none = a := by
  cases a <;> simp [orElseO]

theorem find?_append_orElseO {α : Type} (p : α → Bool) (l₁ l₂ : List α) :
    (l₁ ++ l₂).find? p = orElseO (l₁.find? p) (l₂.find? p) := by
  induction l₁ with
  | nil => simp [orElseO]
  | cons a l ih =>
    by_cases h : p a
    · simp [List.find?_cons, h, orElseO]
    · simp [List.find?_cons, h, ih]

theorem lastGwFor_cons (g : Gw) (tl : List Gw) (k : String) :
    lastGwFor (g :: tl) k =
      orElseO (lastGwFor tl k) (if gwHasKey g k then some g else none) := by
  unfold lastGwFor
  rw [List.reverse_cons, find?_append_orElseO]
  congr 1
  by_cases h : gwHasKey g k <;> simp [List.find?_cons, h]

theorem t1_map_step_lookup (m0 m1 : List (String × Gw)) (g : Gw)
    (hstep : t1_map_step m0 g = some m1) (k : String) :
    dictGet m1 k = orElseO (if gwHasKey g k then some g else none) (dictGet m0 k) := by
  cases hdn : pyStrLower (dictGetD g "display_name" (.str "")) with
  | none => rw [t1_map_step, hdn] at hstep; exact absurd hstep (by simp)
  | some dn =>
    cases hid : pyStrLower (dictGetD g "id" (.str "")) with
    | none => rw [t1_map_step, hdn, hid] at hstep; exact absurd hstep (by simp)
    | some idl =>
      have hval : t1_map_step m0 g =
          some (dictInsert (if dn ≠ "" then dictInsert m0 dn g else m0) idl g) := by
        rw [t1_map_step, hdn, hid]; rfl
      rw [hval] at hstep
      injection hstep with hm1
      subst hm1
      have hkeys : gwKeys g = some (if dn ≠ "" then [dn, idl] else [idl]) := by
        rw [gwKeys, hdn, hid]; rfl
      by_cases hkid : k = idl
      · subst hkid
        rw [dictGet_dictInsert_self]
        have htrue : gwHasKey g k = true := by
          rw [gwHasKey, hkeys]
          by_cases hdne : dn = "" <;> simp [hdne]
        rw [htrue]
        rfl
      · rw [dictGet_dictInsert_ne _ _ _ _ hkid]
        by_cases hdne : dn = ""
        · have hfalse : gwHasKey g k = false := by
            rw [gwHasKey, hkeys]
            simp [hdne, hkid]
          rw [if_neg (by simp [hdne]), hfalse]
          rfl
        · by_cases hkdn : k = dn
          · subst hkdn
            rw [if_pos hdne, dictGet_dictInsert_self]
            have htrue : gwHasKey g k = true := by
              rw [gwHasKey, hkeys]
              simp [hdne]
            rw [htrue]
            rfl
          · rw [if_pos hdne, dictGet_dictInsert_ne _ _ _ _ hkdn]
            have hfalse : gwHasKey g k = false := by
              rw [gwHasKey, hkeys]
              simp [hdne, hkid, hkdn]
            rw [hfalse]
            rfl

theorem t1_map_fold_lookup (nc : List Gw) :
    ∀ m0 m, List.foldlM t1_map_step m0 nc = some m →
      ∀ k, dictGet m k = orElseO (lastGwFor nc k) (dictGet m0 k) := by
  induction nc with
  | nil =>
    intro m0 m h k
    have h' : some m0 = some m := h
    injection h' with h'
    rw [← h']
    simp [lastGwFor, orElseO]
  | cons g tl ih =>
    intro m0 m h k
    rw [List.foldlM_cons] at h
    cases hstep : t1_map_step m0 g with
    | none =>
      rw [hstep] at h
      exact nomatch (id h : (none : Option (List (String × Gw))) = some m)
    | some m1 =>
      rw [hstep] at h
      have h' : List.foldlM t1_map_step m1 tl = some m := h
      rw [ih m1 m h' k, t1_map_step_lookup m0 m1 g hstep k, lastGwFor_cons,
        orElseO_assoc]

/-- Concrete gateway owning the id `"x"`, listed first in the bucket. -/
def gwIdOwner : Gw :=
  [("id", .str "x"), ("display_name", .str "alpha"),
   ("ha_mode", .str "ACTIVE_STANDBY")]

/-- Concrete gateway whose display name is `"x"`, listed second. -/
def gwNameOwner : Gw :=
  [("id", .str "b"), ("display_name", .str "x"),
   ("ha_mode", .str "ACTIVE_STANDBY")]

/-- Counterexample to C9 as stated: the token `"x"` collides between
`gwIdOwner`'s id and `gwNameOwner`'s display name; the claim says the id
takes precedence, so the token should resolve to `gwIdOwner` — but in the
map built from `[gwIdOwner, gwNameOwner]` the later display-name write wins
and `"x"` resolves to `gwNameOwner`. -/
theorem t1_map_id_precedence_counterexample :
    (t1_map [gwIdOwner, gwNameOwner]).map (fun m => dictGet m "x") =
      some (some gwNameOwner) ∧
    dictGet gwIdOwner "id" = some (.str "x") ∧
    dictGet gwNameOwner "display_name" = some (.str "x") ∧
    gwNameOwner ≠ gwIdOwner :=
  ⟨by rfl, by rfl, by rfl, by decide⟩

/-- C9 (amended): the selector's map is keyed case-insensitively by both
display name and id, a gateway whose display name is the empty string is
keyed only by its id, and a colliding key resolves by last-write-wins in
construction order: a token resolves to the last gateway of the bucket
whose key set (lowered id, plus lowered non-empty display name) contains
it — in particular, to the id's owner only when that owner does not precede
the display name's owner in the bucket. -/
theorem t1_map_lookup_last_write_wins (nc : List Gw) (m : List (String × Gw))
    (hm : t1_map nc = some m) (k : String) :
    dictGet m k = lastGwFor nc k := by
  have h := t1_map_fold_lookup nc [] m hm k
  rw [h]
  rw [show dictGet ([] : List (String × Gw)) k = none from rfl, orElseO_none_right]

/-- The map the construction builds from `[gwIdOwner, gwNameOwner]`. -/
def collisionMap : List (String × Gw) :=
  [("alpha", gwIdOwner), ("x", gwNameOwner), ("b", gwNameOwner)]

/-- Witness for the amended C9 at the concrete colliding bucket. -/
theorem t1_map_lookup_last_write_wins_witness :
    t1_map [gwIdOwner, gwNameOwner] = some collisionMap ∧
    dictGet collisionMap "x" = lastGwFor [gwIdOwner, gwNameOwner] "x" :=
  ⟨by rfl,
   t1_map_lookup_last_write_wins [gwIdOwner, gwNameOwner] collisionMap (by rfl) "x"⟩

/-! ## Session/Config provider (`get_config_from_env_or_prompt`, lines 13-31) -/

/-- The pattern `if not v: v = prompt` applied to `os.environ.get(...)`
(a string or `None`): keep the value unless it is absent or falsy (the
empty string), otherwise use the prompted value. -/
def orPrompt (v : Option String) (prompt : String) : String :=
  match v with
  | some s => if s = "" then prompt else s
  | none => prompt

/-- `get_config_from_env_or_prompt()`: resolve the three settings from the
environment, prompting for each missing one — `input(...).strip()` for
manager and username, `getpass(...)` (not stripped) for the password.  The
environment is an oracle from variable name to optional value, prompts are
the operator's would-be answers. -/
def get_config_from_env_or_prompt (env : String → Option String)
    (input_manager input_username getpass_password : String) :
    String × String × String :=
  (orPrompt (env "NSX_MANAGER") (pyStrip input_manager),
   orPrompt (env "NSX_USERNAME") (pyStrip input_username),
   orPrompt (env "NSX_PASSWORD") getpass_password)

theorem orPrompt_norm (v : Option String) (p : String) :
    orPrompt (match v with
      | some s => if s = "" then none else some s
      | none => none) p = orPrompt v p := by
  cases v with
  | none => rfl
  | some s =>
    by_cases h : s = "" <;> simp [h, orPrompt]

/-- C10: an environment variable set to the empty string behaves exactly as
an absent one — the config provider falls through to the interactive prompt
for that value — so the returned triple never contains a value taken from an
empty-string environment variable. -/
theorem config_empty_env_like_absent (env : String → Option String)
    (input_manager input_username getpass_password : String) :
    get_config_from_env_or_prompt env input_manager input_username getpass_password =
      get_config_from_env_or_prompt
        (fun k => match env k with
          | some s => if s = "" then none else some s
          | none => none)
        input_manager input_username getpass_password ∧
    (env "NSX_MANAGER" = some "" →
      (get_config_from_env_or_prompt env input_manager input_username
        getpass_password).1 = pyStrip input_manager) ∧
    (env "NSX_USERNAME" = some "" →
      (get_config_from_env_or_prompt env input_manager input_username
        getpass_password).2.1 = pyStrip input_username) ∧
    (env "NSX_PASSWORD" = some "" →
      (get_config_from_env_or_prompt env input_manager input_username
        getpass_password).2.2 = getpass_password) := by
  refine ⟨?_, ?_, ?_, ?_⟩
  · unfold get_config_from_env_or_prompt
    rw [orPrompt_norm, orPrompt_norm, orPrompt_norm]
  · intro h
    unfold get_config_from_env_or_prompt
    rw [h]
    rfl
  · intro h
    unfold get_config_from_env_or_prompt
    rw [h]
    rfl
  · intro h
    unfold get_config_from_env_or_prompt
    rw [h]
    rfl

/-- A concrete environment: manager set to the empty string, username set,
password unset. -/
def envSample : String → Option String := fun k =>
  if k = "NSX_MANAGER" then some ""
  else if k = "NSX_USERNAME" then some "admin" else none

/-- Witness for C10: with `NSX_MANAGER=""`, the manager comes from the
(stripped) prompt. -/
theorem config_empty_env_like_absent_witness :
    (get_config_from_env_or_prompt envSample " nsx01.lab " "ignored" "pw").1 =
      pyStrip " nsx01.lab " :=
  (config_empty_env_like_absent envSample " nsx01.lab " "ignored" "pw").2.1 (by rfl)

/-! ## Main flow (`main`, source lines 257-325)

`main` is modelled from the listing call onward (config and session setup
issue no requests).  A listing failure propagates out of `main` (the run
ends before any further request); the model returns the counts-so-far and
the requests issued up to that point.  The final confirmation prompt's
answer is one further scripted string. -/

/-- `("y", "yes", "s", "si", "sì")`. -/
def yesAnswers : List String := ["y", "yes", "s", "si", "sì"]

/-- Whether a request is the mutating PUT. -/
def NetCall.isMutation : NetCall → Bool
  | .putT1 _ _ => true
  | _ => false

/-- The per-gateway remediation loop (lines 305-315): each failure —
missing `t1["id"]` (KeyError) or an HTTP error inside
`update_t1_relocation` — is caught, counted, and processing continues with
the remaining gateways.  Returns
`(success_count, error_count, backup_files, requests issued)`. -/
def remediate_step (net : Net) (t1 : Gw) : Nat × Nat × List Gw × List NetCall :=
  match dictGet t1 "id" with
  | none => (0, 1, [], [])
  | some idv =>
    match update_t1_relocation net idv true with
    | (.ok (backup_file, _), calls) => (1, 0, [backup_file], calls)
    | (.error _, calls) => (0, 1, [], calls)

/-- The loop over all selected gateways, accumulating the per-gateway
outcomes in order. -/
def remediate_loop (net : Net) : List Gw → Nat × Nat × List Gw × List NetCall
  | [] => (0, 0, [], [])
  | t1 :: rest =>
    let step := remediate_step net t1
    let restRes := remediate_loop net rest
    (step.1 + restRes.1, step.2.1 + restRes.2.1,
     step.2.2.1 ++ restRes.2.2.1, step.2.2.2 ++ restRes.2.2.2)

/-- `main()` from the listing call onward, under a scripted operator:
selection answers `inputs`, then confirmation answer `answer`.  Returns
`(success_count, error_count, backup_files, all requests issued)`; `none`
when the run does not complete in the model (listing fuel exhausted,
selector answers exhausted, or non-string name fields crashing the map
construction). -/
def main_model (net : Net) (fuel : Nat) (inputs : List String) (answer : String) :
    Option (Nat × Nat × List Gw × List NetCall) :=
  match list_tier1_gateways net fuel with
  | none => none
  | some (.error _, tr) => some (0, 0, [], tr)
  | some (.ok t1_list, tr) =>
    let non_compliant := (classify_t1s t1_list).2.2
    if non_compliant.isEmpty then some (0, 0, [], tr)
    else
      match t1_map non_compliant with
      | none => none
      | some m =>
        match select_loop m non_compliant inputs with
        | none => none
        | some selected_t1s =>
          if selected_t1s.isEmpty then some (0, 0, [], tr)
          else if pyLower (pyStrip answer) ∈ yesAnswers then
            let r := remediate_loop net selected_t1s
            some (r.1, r.2.1, r.2.2.1, tr ++ r.2.2.2)
          else some (0, 0, [], tr)

theorem list_loop_trace_no_mutation (net : Net) (fuel : Nat) :
    ∀ cursor acc tr0 res tr,
      list_loop net fuel cursor acc tr0 = some (res, tr) →
      (∀ c, c ∈ tr0 → c.isMutation = false) →
      ∀ c, c ∈ tr → c.isMutation = false := by
  induction fuel with
  | zero => intro cursor acc tr0 res tr h; exact absurd h (by simp [list_loop])
  | succ n ih =>
    intro cursor acc tr0 res tr h h0
    have h0' : ∀ c, c ∈ tr0 ++ [NetCall.listGet (listParams cursor)] →
        c.isMutation = false := by
      intro c hc
      rcases List.mem_append.mp hc with hc | hc
      · exact h0 c hc
      · rw [List.mem_singleton.mp hc]
        rfl
    simp only [list_loop] at h
    cases hl : net.list (listParams cursor) with
    | error e =>
      rw [hl] at h
      simp only [Option.some.injEq, Prod.mk.injEq] at h
      rw [← h.2]
      exact h0'
    | ok page =>
      rw [hl] at h
      by_cases hc : truthyCursor page.cursor
      · simp only [hc, if_true] at h
        exact ih page.cursor (acc ++ page.results) _ res tr h h0'
      · simp only [hc, Bool.false_eq_true, if_false, Option.some.injEq,
          Prod.mk.injEq] at h
        rw [← h.2]
        exact h0'

/-- C5: in any completed run, a mutating (PUT) request appears in the trace
only if the selector returned a non-empty selection and the confirmation
answer was affirmative; contrapositively, a run whose selection came back
empty (cancellation) or whose confirmation was not among the accepted yes
answers issues zero mutating requests. -/
theorem mutation_requires_selection_and_confirmation
    (net : Net) (fuel : Nat) (inputs : List String) (answer : String)
    (out : Nat × Nat × List Gw × List NetCall)
    (hrun : main_model net fuel inputs answer = some out)
    (c : NetCall) (hc : c ∈ out.2.2.2) (hmut : c.isMutation = true) :
    ∃ t1_list tr m selected_t1s,
      list_tier1_gateways net fuel = some (.ok t1_list, tr) ∧
      t1_map (classify_t1s t1_list).2.2 = some m ∧
      select_loop m (classify_t1s t1_list).2.2 inputs = some selected_t1s ∧
      selected_t1s ≠ [] ∧ pyLower (pyStrip answer) ∈ yesAnswers := by
  unfold main_model at hrun
  cases hlist : list_tier1_gateways net fuel with
  | none => rw [hlist] at hrun; exact absurd hrun (by simp)
  | some p =>
    obtain ⟨res, tr⟩ := p
    have htrace : ∀ c, c ∈ tr → c.isMutation = false :=
      list_loop_trace_no_mutation net fuel none [] [] res tr hlist
        (by intro c hc; exact absurd hc (List.not_mem_nil c))
    rw [hlist] at hrun
    cases res with
    | error e =>
      simp only [Option.some.injEq] at hrun
      rw [← hrun] at hc
      exact absurd (htrace c hc) (by rw [hmut]; simp)
    | ok t1_list =>
      by_cases hnc : ((classify_t1s t1_list).2.2).isEmpty
      · simp only [hnc, if_true, Option.some.injEq] at hrun
        rw [← hrun] at hc
        exact absurd (htrace c hc) (by rw [hmut]; simp)
      · simp only [hnc, Bool.false_eq_true, if_false] at hrun
        cases hmap : t1_map (classify_t1s t1_list).2.2 with
        | none => rw [hmap] at hrun; exact absurd hrun (by simp)
        | some m =>
          rw [hmap] at hrun
          simp only [] at hrun
          cases hsel : select_loop m (classify_t1s t1_list).2.2 inputs with
          | none => rw [hsel] at hrun; exact absurd hrun (by simp)
          | some selected_t1s =>
            rw [hsel] at hrun
            by_cases hemp : selected_t1s.isEmpty
            · simp only [hemp, if_true, Option.some.injEq] at hrun
              rw [← hrun] at hc
              exact absurd (htrace c hc) (by rw [hmut]; simp)
            · simp only [hemp, Bool.false_eq_true, if_false] at hrun
              by_cases hyes : pyLower (pyStrip answer) ∈ yesAnswers
              · refine ⟨t1_list, tr, m, selected_t1s, rfl, hmap, hsel,
                  fun hnil => ?_, hyes⟩
                rw [hnil] at hemp
                exact hemp rfl
              · rw [if_neg hyes] at hrun
                simp only [Option.some.injEq] at hrun
                rw [← hrun] at hc
                exact absurd (htrace c hc) (by rw [hmut]; simp)

/-- The gateway GET request always opens the per-gateway remediation. -/
theorem update_trace_has_get (net : Net) (t1_id : JVal) (enable : Bool) :
    NetCall.getT1 t1_id ∈ (update_t1_relocation net t1_id enable).2 := by
  unfold update_t1_relocation get_t1_full_config
  cases net.getT1 t1_id with
  | error e => simp
  | ok cfg =>
    show NetCall.getT1 t1_id ∈
      (match net.putT1 t1_id (dictInsert cfg "enable_standby_relocation" (.bool enable)) with
        | .error e => (Except.error e,
            [NetCall.getT1 t1_id,
             NetCall.putT1 t1_id (dictInsert cfg "enable_standby_relocation" (.bool enable))])
        | .ok _ =>
            (Except.ok (cfg, dictInsert cfg "enable_standby_relocation" (.bool enable)),
            [NetCall.getT1 t1_id,
             NetCall.putT1 t1_id (dictInsert cfg "enable_standby_relocation" (.bool enable))])).2
    cases net.putT1 t1_id (dictInsert cfg "enable_standby_relocation" (.bool enable)) with
    | error e => simp
    | ok u => simp


theorem remediate_step_spec (net : Net) (t1 : Gw) :
    (remediate_step net t1).1 + (remediate_step net t1).2.1 = 1 ∧
    (remediate_step net t1).2.2.1.length = (remediate_step net t1).1 ∧
    (∀ idv, dictGet t1 "id" = some idv →
      NetCall.getT1 idv ∈ (remediate_step net t1).2.2.2) := by
  cases hid : dictGet t1 "id" with
  | none =>
    have he : remediate_step net t1 = (0, 1, [], []) := by
      unfold remediate_step
      rw [hid]
    rw [he]
    refine ⟨rfl, rfl, ?_⟩
    intro idv hidv
    exact absurd hidv (by simp)
  | some idv =>
    have he : remediate_step net t1 =
        (match update_t1_relocation net idv true with
         | (.ok (backup_file, _), calls) => (1, 0, [backup_file], calls)
         | (.error _, calls) => (0, 1, ([] : List Gw), calls)) := by
      unfold remediate_step
      rw [hid]
    have hget := update_trace_has_get net idv true
    cases hupd : update_t1_relocation net idv true with
    | mk r calls =>
      rw [hupd] at he hget
      cases r with
      | ok pr =>
        obtain ⟨backup_file, resp⟩ := pr
        rw [he]
        refine ⟨rfl, rfl, ?_⟩
        intro idv' hidv'
        injection hidv' with hidv'
        subst hidv'
        simpa using hget
      | error e' =>
        rw [he]
        refine ⟨rfl, rfl, ?_⟩
        intro idv' hidv'
        injection hidv' with hidv'
        subst hidv'
        simpa using hget

/-- C6: the remediation loop attempts every selected gateway — a failure on
one gateway never aborts the rest: success and error counts always sum to
the selection's size, exactly one backup path is collected per successful
remediation, and every selected gateway with an id has its GET issued in
the loop's trace. -/
theorem remediation_counts_and_backups (net : Net) (selected_t1s : List Gw) :
    (remediate_loop net selected_t1s).1 + (remediate_loop net selected_t1s).2.1 =
      selected_t1s.length ∧
    (remediate_loop net selected_t1s).2.2.1.length =
      (remediate_loop net selected_t1s).1 ∧
    (∀ t1, t1 ∈ selected_t1s → ∀ idv, dictGet t1 "id" = some idv →
      NetCall.getT1 idv ∈ (remediate_loop net selected_t1s).2.2.2) := by
  induction selected_t1s with
  | nil => exact ⟨rfl, rfl, fun t1 ht => absurd ht (List.not_mem_nil t1)⟩
  | cons t1 rest ih =>
    obtain ⟨ihc, ihb, ihg⟩ := ih
    obtain ⟨hsc, hsb, hsg⟩ := remediate_step_spec net t1
    have hloop : remediate_loop net (t1 :: rest) =
        ((remediate_step net t1).1 + (remediate_loop net rest).1,
         (remediate_step net t1).2.1 + (remediate_loop net rest).2.1,
         (remediate_step net t1).2.2.1 ++ (remediate_loop net rest).2.2.1,
         (remediate_step net t1).2.2.2 ++ (remediate_loop net rest).2.2.2) := rfl
    rw [hloop]
    refine ⟨?_, ?_, ?_⟩
    · simp only [List.length_cons]
      omega
    · rw [List.length_append, hsb, ihb]
    · intro t1' ht idv hidv
      rcases List.mem_cons.mp ht with h | h
      · subst h
        exact List.mem_append.mpr (Or.inl (hsg idv hidv))
      · exact List.mem_append.mpr (Or.inr (ihg t1' h idv hidv))

/-- A server whose listing returns one non-compliant gateway on a single
page, serves that gateway on GET, and accepts all PUTs. -/
def fullNet : Net where
  list := fun _ => .ok ⟨[gwMissingFlag], none⟩
  getT1 := fun i => if i = .str "t1-b" then .ok gwMissingFlag else .error ⟨404, "not found"⟩
  putT1 := fun _ _ => .ok ()

/-- Witness for C6: remediating two concrete gateways (one succeeding, one
whose GET fails) yields counts summing to 2 and the successful gateway's
GET in the trace. -/
theorem remediation_counts_and_backups_witness :
    (remediate_loop fullNet [gwMissingFlag, gwActiveActive]).1 +
      (remediate_loop fullNet [gwMissingFlag, gwActiveActive]).2.1 = 2 ∧
    NetCall.getT1 (.str "t1-b") ∈
      (remediate_loop fullNet [gwMissingFlag, gwActiveActive]).2.2.2 :=
  ⟨(remediation_counts_and_backups fullNet [gwMissingFlag, gwActiveActive]).1,
   (remediation_counts_and_backups fullNet [gwMissingFlag, gwActiveActive]).2.2
     gwMissingFlag (by decide) (.str "t1-b") (by rfl)⟩

/-- Witness for C5: the full run — listing, classifying, selecting `all`,
confirming `yes` — completes and issues a PUT, and the theorem recovers the
non-empty selection and the affirmative answer behind it. -/
theorem mutation_requires_selection_and_confirmation_witness :
    main_model fullNet 1 ["all"] "yes" =
      some (1, 0, [gwMissingFlag],
        [NetCall.listGet none, NetCall.getT1 (.str "t1-b"),
         NetCall.putT1 (.str "t1-b")
           (dictInsert gwMissingFlag "enable_standby_relocation" (.bool true))]) ∧
    (∃ t1_list tr m selected_t1s,
      list_tier1_gateways fullNet 1 = some (.ok t1_list, tr) ∧
      t1_map (classify_t1s t1_list).2.2 = some m ∧
      select_loop m (classify_t1s t1_list).2.2 ["all"] = some selected_t1s ∧
      selected_t1s ≠ [] ∧ pyLower (pyStrip "yes") ∈ yesAnswers) :=
  ⟨by rfl,
   mutation_requires_selection_and_confirmation fullNet 1 ["all"] "yes" _ (by rfl)
     (NetCall.putT1 (.str "t1-b")
       (dictInsert gwMissingFlag "enable_standby_relocation" (.bool true)))
     (by decide) (by rfl)⟩
